import Mathlib

/-!
Verification of FolderToJSON-AI (src/main.py): a tool that recursively walks a
directory tree, requests a natural-language description for each entry from a
local inference endpoint, and serialises the resulting tree to JSON.

The shallow embedding models:
  - the Describer (`describe_with_curl`, `encode_image_to_base64`), with the
    HTTP transport and the image-file reads abstracted into an environment
    (`DescribeEnv`) of oracles;
  - the Tree Walker (`scan_folder`), over an inductive filesystem model
    (`FSTree`, finite and acyclic by construction, matching a directory tree
    without symbolic-link cycles);
  - the driver (`main`), as a function from the interactive input and the
    filesystem world to the observable run result (console lines, the output
    file written, and any uncaught exception).

Python-specific behaviour is kept faithfully: string truthiness (`if x:` is
false for None and for the empty string), `str.endswith` with a tuple of
suffixes, `os.path.basename` / `os.path.join` posix semantics, the insertion
order of dict keys, and `json.dump` with `indent=4` (ensure_ascii escaping).
-/

/-- One chat message of the request payload built by describe_with_curl:
role, content, and the optional `images` list (present only in image mode). -/
structure Message where
  role : String
  content : String
  images : Option (List String)
deriving DecidableEq, Repr

/-- The JSON payload POSTed to the inference endpoint:
`{"model": ..., "messages": [...]}` (src/main.py lines 33-36). -/
structure Payload where
  model : String
  messages : List Message
deriving DecidableEq, Repr

/-- Outcome of `requests.post` as observed by the code inside the `try` block:
either some exception is raised (transport failure, or a JSON-parse failure
from `response.json()`), or a response arrives carrying a status code, the
result of reading the top-level `content` field of the parsed JSON body
(`Except.error` when `response.json()` itself would raise, `.ok none` when the
field is absent), and the raw body text. -/
inductive HttpOutcome where
  | exn (detail : String)
  | resp (status : Nat) (jsonContent : Except String (Option String)) (text : String)

/-- The oracles the Describer interacts with: reading the bytes of an image
file (which can raise), and issuing the HTTP POST. -/
structure DescribeEnv where
  readImage : String → Except String (List Nat)
  http : Payload → HttpOutcome

/-- The characters of the standard base64 alphabet, as used by
`base64.b64encode`. -/
def base64Alphabet : List Char :=
  "ABCDEFGHIJKLMNOPQRSTUVWXYZabcdefghijklmnopqrstuvwxyz0123456789+/".data

/-- The i-th character of the base64 alphabet. -/
def b64char (i : Nat) : Char := base64Alphabet.getD i 'A'

/-- Standard base64 of a byte sequence (RFC 4648, with `=` padding), as
computed by `base64.b64encode(...).decode("utf-8")`. -/
def b64encode : List Nat → String
  | [] => ""
  | [a] =>
      String.mk [b64char (a / 4), b64char (a % 4 * 16)] ++ "=="
  | [a, b] =>
      String.mk [b64char (a / 4), b64char (a % 4 * 16 + b / 16), b64char (b % 16 * 4)] ++ "="
  | a :: b :: c :: rest =>
      String.mk [b64char (a / 4), b64char (a % 4 * 16 + b / 16),
                 b64char (b % 16 * 4 + c / 64), b64char (c % 64)] ++ b64encode rest

/-- encode_image_to_base64 (src/main.py lines 7-19): read the file and base64
encode it; on any exception print an error and return None. -/
def encode_image_to_base64 (env : DescribeEnv) (image_path : String) : Option String :=
  match env.readImage image_path with
  | .ok bytes => some (b64encode bytes)
  | .error _ => none

/-- Python str() of an optional string as interpolated by an f-string:
`None` renders as "None". -/
def pyStr : Option String → String
  | none => "None"
  | some s => s

/-- The shared tail of describe_with_curl (src/main.py lines 56-63): POST the
payload and turn the outcome into the returned string. Any exception raised
inside the `try` block (transport failure or `response.json()` failure) is
caught and rendered as "Error making the request: {e}". -/
def http_post_and_handle (env : DescribeEnv) (payload : Payload) : String :=
  match env.http payload with
  | .exn e => "Error making the request: " ++ e
  | .resp status jsonContent text =>
      if status == 200 then
        match jsonContent with
        | .error e => "Error making the request: " ++ e
        | .ok (some content) => content
        | .ok none => "No description available"
      else
        "Error: " ++ toString status ++ " - " ++ text

/-- The text-mode branch of describe_with_curl (src/main.py lines 49-54 plus
the shared request tail): one user message "Describe this: {text}", no images.
The second component records the payload actually POSTed (none would mean no
network call was made; in text mode a call is always made). -/
def describe_text (env : DescribeEnv) (model : String) (text : Option String) :
    String × Option Payload :=
  let payload : Payload := ⟨model, [⟨"user", "Describe this: " ++ pyStr text, none⟩]⟩
  (http_post_and_handle env payload, some payload)

/-- describe_with_curl (src/main.py lines 22-63). The first component is the
returned description string; the second records the payload POSTed to the
endpoint, or none when no network call was made. Python truthiness of
`if image_path:` and `if image_data:` is modelled exactly: None and the empty
string are falsy. -/
def describe_with_curl (env : DescribeEnv) (model : String)
    (image_path : Option String) (text : Option String) : String × Option Payload :=
  match image_path with
  | some ip =>
      if ip = "" then describe_text env model text
      else
        match encode_image_to_base64 env ip with
        | some image_data =>
            if image_data = "" then ("Error encoding the image for description.", none)
            else
              let payload : Payload :=
                ⟨model, [⟨"user", "What is in this image?", some [image_data]⟩]⟩
              (http_post_and_handle env payload, some payload)
        | none => ("Error encoding the image for description.", none)
  | none => describe_text env model text

/-- The filesystem world the walker traverses: a finite tree of named entries.
Being an inductive type, an `FSTree` is finite and acyclic by construction,
which models a directory tree containing no symbolic-link cycles back into an
ancestor. A `dir`'s entry list is in the order `os.listdir` yields the names. -/
inductive FSTree where
  | file (name : String)
  | dir (name : String) (entries : List FSTree)

/-- The entry's own name (what `os.listdir` of the parent yields for it). -/
def FSTree.name : FSTree → String
  | .file n => n
  | .dir n _ => n

/-- Python `s.startswith(pre)`. -/
def py_startswith (s pre : String) : Bool := pre.data.isPrefixOf s.data

/-- Python `s.endswith(suffix)` for a single suffix. -/
def py_endswith (s suffix : String) : Bool := suffix.data.isSuffixOf s.data

/-- posix `os.path.basename`: the characters after the last '/'. -/
def os_path_basename (p : String) : String :=
  String.mk ((p.data.reverse.takeWhile (fun c => c != '/')).reverse)

/-- posix `os.path.join a b` for a single extra component: b if b is absolute,
otherwise a and b joined with exactly one '/'. -/
def os_path_join (a b : String) : String :=
  if py_startswith b "/" then b
  else if a = "" then b
  else if py_endswith a "/" then a ++ b
  else a ++ "/" ++ b

/-- `os.path.abspath`, modelled for the paths this program builds: the
interactive input is taken to be an absolute, already-normalised path, and
every path the walker constructs from it stays absolute and normalised, so
abspath is the identity there. -/
def os_path_abspath (p : String) : String := p

/-- Python `str.lower()`, character by character. `Char.toLower` lowercases
the ASCII range; Python also lowercases non-ASCII letters, which none of the
extensions compared against contain. -/
def py_lower (s : String) : String := String.mk (s.data.map Char.toLower)

/-- Python `item.lower().endswith((s1, ..., sn))`: does the lowercased string
end with any of the given suffixes? -/
def lower_endswith_any (item : String) (suffixes : List String) : Bool :=
  suffixes.any (fun suffix => py_endswith (py_lower item) suffix)

/-- The image-extension test of src/main.py line 89:
`item.lower().endswith(("png", "jpg", "jpeg", "gif"))`. -/
def is_image_item (item : String) : Bool :=
  lower_endswith_any item ["png", "jpg", "jpeg", "gif"]

/-- One node of the output tree: the dict built by scan_folder, with its keys
in insertion order (name, path, type, description, and children for folders;
`children` is absent — `none` — for file leaves). -/
inductive Node where
  | node (name : String) (path : String) (type : String) (description : String)
         (children : Option (List Node))

/-- The node's `name` field. -/
def Node.name : Node → String
  | .node n _ _ _ _ => n

/-- The node's `path` field. -/
def Node.path : Node → String
  | .node _ p _ _ _ => p

/-- The node's `type` field. -/
def Node.type : Node → String
  | .node _ _ t _ _ => t

/-- The node's `description` field. -/
def Node.description : Node → String
  | .node _ _ _ d _ => d

/-- The node's `children` field (`none` when the key is absent). -/
def Node.children : Node → Option (List Node)
  | .node _ _ _ _ c => c

mutual

/-- The body of scan_folder (src/main.py lines 74-99) for a directory whose
listed entries are `entries` and whose path argument is `folder_path`: build
the folder's own dict (describing its base name in text mode) and append one
child per listed entry. -/
def scan_dir (env : DescribeEnv) (model : String) (entries : List FSTree)
    (folder_path : String) : Node :=
  Node.node (os_path_basename folder_path) (os_path_abspath folder_path) "folder"
    ((describe_with_curl env model none (some (os_path_basename folder_path))).1)
    (some (scan_children env model entries folder_path))
termination_by sizeOf entries + 1

/-- The `for item in os.listdir(folder_path)` loop of src/main.py lines 82-97:
one output node per entry, in listing order. A directory entry recurses; a
file entry is described in image mode when `is_image_item` holds of its name
(passing the full path) and in text mode otherwise (the name is always passed
as `text`), and becomes a leaf dict without a `children` key. -/
def scan_children (env : DescribeEnv) (model : String) (entries : List FSTree)
    (folder_path : String) : List Node :=
  match entries with
  | [] => []
  | .dir item sub :: rest =>
      let item_path := os_path_join folder_path item
      scan_dir env model sub item_path :: scan_children env model rest folder_path
  | .file item :: rest =>
      let item_path := os_path_join folder_path item
      let description :=
        (describe_with_curl env model
          (if is_image_item item then some item_path else none) (some item)).1
      Node.node item (os_path_abspath item_path) "file" description none
        :: scan_children env model rest folder_path
termination_by sizeOf entries

end

/-- scan_folder (src/main.py lines 66-99) on the filesystem entry `t` found at
`folder_path`. When the entry is a directory this is `scan_dir` on its listed
entries. When it is a plain file, `os.listdir(folder_path)` at line 82 raises
NotADirectoryError, which no handler in the program catches; the `.error`
value models that propagating exception. -/
def scan_folder (env : DescribeEnv) (model : String) (t : FSTree)
    (folder_path : String) : Except String Node :=
  match t with
  | .file _ =>
      .error ("NotADirectoryError: [Errno 20] Not a directory: " ++ folder_path)
  | .dir _ entries => .ok (scan_dir env model entries folder_path)

mutual

/-- The structural invariant of the output tree: `children` is present
(`some`) exactly when `type` is "folder", at every node. -/
def nodeInvariant (n : Node) : Bool :=
  match n with
  | .node _ _ type _ (some cs) => type == "folder" && nodesInvariant cs
  | .node _ _ type _ none => type != "folder"
termination_by sizeOf n

/-- `nodeInvariant` on every node of a list. -/
def nodesInvariant (ns : List Node) : Bool :=
  match ns with
  | [] => true
  | n :: rest => nodeInvariant n && nodesInvariant rest
termination_by sizeOf ns

end

mutual

/-- Total number of entries in a filesystem tree (the entry itself plus
everything below it). -/
def FSTree.totalCount (t : FSTree) : Nat :=
  match t with
  | .file _ => 1
  | .dir _ entries => 1 + FSTree.totalCountList entries
termination_by sizeOf t

/-- Sum of `FSTree.totalCount` over a list of entries. -/
def FSTree.totalCountList (ts : List FSTree) : Nat :=
  match ts with
  | [] => 0
  | t :: rest => FSTree.totalCount t + FSTree.totalCountList rest
termination_by sizeOf ts

end

mutual

/-- Total number of nodes in an output tree (the node itself plus everything
below it; a missing `children` key contributes nothing). -/
def Node.totalCount (n : Node) : Nat :=
  match n with
  | .node _ _ _ _ (some cs) => 1 + Node.totalCountList cs
  | .node _ _ _ _ none => 1
termination_by sizeOf n

/-- Sum of `Node.totalCount` over a list of nodes. -/
def Node.totalCountList (ns : List Node) : Nat :=
  match ns with
  | [] => 0
  | n :: rest => Node.totalCount n + Node.totalCountList rest
termination_by sizeOf ns

end

/-- The i-th lowercase hexadecimal digit. -/
def hexDigit (n : Nat) : Char := "0123456789abcdef".data.getD n '0'

/-- Four lowercase hex digits, as produced by Python's "\u%04x" escapes. -/
def hex4 (n : Nat) : String :=
  String.mk [hexDigit (n / 4096 % 16), hexDigit (n / 256 % 16),
             hexDigit (n / 16 % 16), hexDigit (n % 16)]

/-- Escape one character the way `json.dump` does with its default
ensure_ascii=True: the two-character escapes for quote, backslash and the
common control characters, \u00xx for other control characters, the literal
character for printable ASCII, and \uxxxx (with a surrogate pair above the
basic multilingual plane) for everything non-ASCII. -/
def json_escape_char (c : Char) : String :=
  if c = '"' then "\\\""
  else if c = '\\' then "\\\\"
  else if c = '\n' then "\\n"
  else if c = '\r' then "\\r"
  else if c = '\t' then "\\t"
  else if c.toNat = 8 then "\\b"
  else if c.toNat = 12 then "\\f"
  else if c.toNat < 32 then "\\u" ++ hex4 c.toNat
  else if c.toNat < 127 then String.mk [c]
  else if c.toNat < 65536 then "\\u" ++ hex4 c.toNat
  else
    let n := c.toNat - 65536
    "\\u" ++ hex4 (55296 + n / 1024) ++ "\\u" ++ hex4 (56320 + n % 1024)

/-- A JSON string literal for `s`, as `json.dump` renders it. -/
def json_quote (s : String) : String :=
  "\"" ++ String.join (s.data.map json_escape_char) ++ "\""

/-- `4 * level` spaces: the indentation prefix `json.dump` uses with
`indent=4` at nesting depth `level`. -/
def jsonPad (level : Nat) : String := String.mk (List.replicate (4 * level) ' ')

mutual

/-- Serialise one node dict the way `json.dump(..., indent=4)` does, with the
closing brace indented at `level`. Keys appear in the dict's insertion order
(src/main.py lines 74-80 and 92-97); the `children` key is emitted only when
present. -/
def node_to_json (n : Node) (level : Nat) : String :=
  match n with
  | .node name path type description children =>
      "\x7b\n"
      ++ jsonPad (level + 1) ++ json_quote "name" ++ ": " ++ json_quote name ++ ",\n"
      ++ jsonPad (level + 1) ++ json_quote "path" ++ ": " ++ json_quote path ++ ",\n"
      ++ jsonPad (level + 1) ++ json_quote "type" ++ ": " ++ json_quote type ++ ",\n"
      ++ jsonPad (level + 1) ++ json_quote "description" ++ ": " ++ json_quote description
      ++ (match children with
          | none => ""
          | some [] => ",\n" ++ jsonPad (level + 1) ++ json_quote "children" ++ ": []"
          | some (c :: cs) =>
              ",\n" ++ jsonPad (level + 1) ++ json_quote "children" ++ ": [\n"
              ++ jsonPad (level + 2) ++ node_to_json c (level + 2)
              ++ nodes_to_json cs (level + 2)
              ++ "\n" ++ jsonPad (level + 1) ++ "]")
      ++ "\n" ++ jsonPad level ++ "\x7d"
termination_by sizeOf n

/-- The remaining elements of a JSON array of nodes: each preceded by a comma,
a newline and the element indentation. -/
def nodes_to_json (ns : List Node) (level : Nat) : String :=
  match ns with
  | [] => ""
  | c :: cs => ",\n" ++ jsonPad level ++ node_to_json c level ++ nodes_to_json cs level
termination_by sizeOf ns

end

/-- `json.dump(folder_structure, f, indent=4)`: the exact text written to the
output file. -/
def json_dump_indent4 (n : Node) : String := node_to_json n 0

/-- Python `str.strip()`: remove leading and trailing whitespace. -/
def py_strip (s : String) : String :=
  String.mk (((s.data.dropWhile Char.isWhitespace).reverse.dropWhile
    Char.isWhitespace).reverse)

/-- The filesystem as seen by `os.path.exists` and the walker: what entry, if
any, lives at a given path string. -/
structure World where
  lookup : String → Option FSTree

/-- What a run of the program leaves behind: the console lines printed, the
output file written (path and contents), and the uncaught exception (if any)
that aborted the run. -/
structure RunResult where
  printed : List String
  written : Option (String × String)
  uncaught : Option String

/-- main (src/main.py lines 102-117): read and strip the path, check
existence, scan, and write `folder_structure.json` inside the scanned root
with `indent=4`. If the path does not exist, print a message and return
without writing. If `scan_folder` raises (path exists but is not a
directory), the exception propagates and nothing is written. -/
def main_run (env : DescribeEnv) (world : World) (raw_input : String) : RunResult :=
  let folder_path := py_strip raw_input
  let model := "llama3.2-vision"
  match world.lookup folder_path with
  | none => ⟨["The specified folder does not exist."], none, none⟩
  | some t =>
      match scan_folder env model t folder_path with
      | .error e => ⟨["Scanning folder and generating descriptions..."], none, some e⟩
      | .ok folder_structure =>
          let output_file := os_path_join folder_path "folder_structure.json"
          ⟨["Scanning folder and generating descriptions...",
            "Folder structure saved to " ++ output_file],
           some (output_file, json_dump_indent4 folder_structure), none⟩

/-- Whenever describe_with_curl records a POSTed payload, the returned string
is exactly the handling of that payload's HTTP outcome. -/
theorem describe_posted_result (env : DescribeEnv) (model : String)
    (image_path text : Option String) (p : Payload)
    (h : (describe_with_curl env model image_path text).2 = some p) :
    (describe_with_curl env model image_path text).1 = http_post_and_handle env p := by
  unfold describe_with_curl describe_text at *
  rcases image_path with _ | ip
  · simp at h; simp [h]
  · by_cases hip : ip = "" <;> simp [hip] at h ⊢
    · simp [h]
    · rcases henc : encode_image_to_base64 env ip with _ | data <;> simp [henc] at h ⊢
      by_cases hd : data = "" <;> simp [hd] at h ⊢
      simp [h]

/-- The walker produces exactly one child node per listed entry. -/
theorem scan_children_length (env : DescribeEnv) (model : String)
    (entries : List FSTree) (folder_path : String) :
    (scan_children env model entries folder_path).length = entries.length := by
  induction entries with
  | nil => simp [scan_children]
  | cons e rest ih =>
      cases e with
      | dir item sub => simp [scan_children, ih]
      | file item => simp [scan_children, ih]

mutual

/-- Every node scan_dir builds satisfies the children-iff-folder invariant. -/
theorem scan_dir_invariant (env : DescribeEnv) (model : String)
    (entries : List FSTree) (folder_path : String) :
    nodeInvariant (scan_dir env model entries folder_path) = true := by
  rw [scan_dir]
  simp [nodeInvariant, scan_children_invariant env model entries folder_path]
termination_by sizeOf entries + 1

/-- Every node list scan_children builds satisfies the invariant throughout. -/
theorem scan_children_invariant (env : DescribeEnv) (model : String)
    (entries : List FSTree) (folder_path : String) :
    nodesInvariant (scan_children env model entries folder_path) = true := by
  match entries with
  | [] => simp [scan_children, nodesInvariant]
  | .dir item sub :: rest =>
      rw [scan_children]
      simp [nodesInvariant,
        scan_dir_invariant env model sub (os_path_join folder_path item),
        scan_children_invariant env model rest folder_path]
  | .file item :: rest =>
      rw [scan_children]
      simp [nodesInvariant, nodeInvariant,
        scan_children_invariant env model rest folder_path]
termination_by sizeOf entries

end

mutual

/-- The tree scan_dir returns contains exactly one node per filesystem entry
of the directory, itself included. -/
theorem scan_dir_count (env : DescribeEnv) (model : String)
    (entries : List FSTree) (folder_path : String) :
    Node.totalCount (scan_dir env model entries folder_path)
      = 1 + FSTree.totalCountList entries := by
  rw [scan_dir]
  simp [Node.totalCount, scan_children_count env model entries folder_path]
termination_by sizeOf entries + 1

/-- The node list scan_children returns contains exactly one node per
filesystem entry below the listed entries, the entries themselves included. -/
theorem scan_children_count (env : DescribeEnv) (model : String)
    (entries : List FSTree) (folder_path : String) :
    Node.totalCountList (scan_children env model entries folder_path)
      = FSTree.totalCountList entries := by
  match entries with
  | [] => simp [scan_children, Node.totalCountList, FSTree.totalCountList]
  | .dir item sub :: rest =>
      rw [scan_children]
      simp [Node.totalCountList, FSTree.totalCountList, FSTree.totalCount,
        scan_dir_count env model sub (os_path_join folder_path item),
        scan_children_count env model rest folder_path]
  | .file item :: rest =>
      rw [scan_children]
      simp [Node.totalCountList, FSTree.totalCountList, FSTree.totalCount,
        Node.totalCount, scan_children_count env model rest folder_path]
termination_by sizeOf entries

end

/-- takeWhile of a list all of whose elements satisfy the test, followed by an
element that fails it, is exactly that first list. -/
theorem takeWhile_all_append (p : Char → Bool) (l₁ l₂ : List Char) (c : Char)
    (h : ∀ x ∈ l₁, p x = true) (hc : p c = false) :
    (l₁ ++ c :: l₂).takeWhile p = l₁ := by
  induction l₁ with
  | nil => simp [List.takeWhile, hc]
  | cons a t ih =>
      have ha : p a = true := h a (List.mem_cons_self a t)
      simp [List.takeWhile, ha]
      exact ih (fun x hx => h x (List.mem_cons_of_mem a hx))

/-- A name containing no '/' is its own basename after being joined to a
non-empty path that does not already end in '/'. -/
theorem basename_join (path item : String)
    (h1 : path ≠ "") (h2 : py_endswith path "/" = false)
    (h3 : py_startswith item "/" = false)
    (h4 : ∀ c ∈ item.data, (c != '/') = true) :
    os_path_basename (os_path_join path item) = item := by
  rw [os_path_join]
  simp [h1, h2, h3]
  rw [os_path_basename]
  have hdata : (path ++ "/" ++ item).data = path.data ++ '/' :: item.data := by
    simp [String.data_append]
  rw [hdata, List.reverse_append]
  have : ('/' :: item.data).reverse = item.data.reverse ++ ['/'] := by
    simp
  rw [this, List.append_assoc, List.singleton_append]
  rw [takeWhile_all_append _ item.data.reverse _ '/'
        (fun x hx => h4 x (List.mem_reverse.mp hx)) (by decide)]
  simp

/-- An entry name is a plain path component: not absolute and containing no
'/' (true of every name `os.listdir` can yield). -/
def plainName (s : String) : Bool :=
  !(py_startswith s "/") && s.data.all (fun c => c != '/')

/-- With a well-formed folder path and plain entry names, the walker's child
nodes carry exactly the entry names, in listing order. -/
theorem scan_children_names (env : DescribeEnv) (model : String)
    (entries : List FSTree) (folder_path : String)
    (h1 : folder_path ≠ "") (h2 : py_endswith folder_path "/" = false)
    (h : ∀ e ∈ entries, plainName e.name = true) :
    (scan_children env model entries folder_path).map Node.name
      = entries.map FSTree.name := by
  induction entries with
  | nil => simp [scan_children]
  | cons e rest ih =>
      have hrest : ∀ x ∈ rest, plainName x.name = true :=
        fun x hx => h x (List.mem_cons_of_mem e hx)
      have he := h e (List.mem_cons_self e rest)
      cases e with
      | dir item sub =>
          rw [plainName] at he
          simp [FSTree.name, Bool.and_eq_true, List.all_eq_true] at he
          simp [scan_children, ih hrest, scan_dir, Node.name, FSTree.name]
          exact basename_join folder_path item h1 h2 he.1
            (fun c hc => by simp [he.2 c hc])
      | file item =>
          simp [scan_children, Node.name, FSTree.name, ih hrest]

/-- An environment whose HTTP transport always fails with the given detail
(connection refused, timeout, DNS failure, ...). Image reads succeed. -/
def envExn (d : String) : DescribeEnv :=
  ⟨fun _ => .ok [77, 97, 110], fun _ => .exn d⟩

/-- An environment whose HTTP transport always returns the given response.
Image reads succeed. -/
def envResp (status : Nat) (jsonContent : Except String (Option String))
    (body : String) : DescribeEnv :=
  ⟨fun _ => .ok [77, 97, 110], fun _ => .resp status jsonContent body⟩

/-- C1: describe_with_curl is a total function of its inputs and oracle
environment (so no exception reaches the caller); whenever it POSTs a payload
whose transport raises, the returned description is exactly
"Error making the request: " followed by the failure detail; and the walker
still produces one child node per sibling entry, so the traversal completes. -/
theorem c1_transport_failure_degrades_to_string (env : DescribeEnv)
    (model : String) (image_path text : Option String) (p : Payload) (d : String)
    (entries : List FSTree) (folder_path : String)
    (hp : (describe_with_curl env model image_path text).2 = some p)
    (hd : env.http p = HttpOutcome.exn d) :
    (describe_with_curl env model image_path text).1 = "Error making the request: " ++ d
    ∧ (scan_children env model entries folder_path).length = entries.length := by
  constructor
  · rw [describe_posted_result env model image_path text p hp, http_post_and_handle, hd]
  · exact scan_children_length env model entries folder_path

/-- Witness for C1 at a concrete failing transport. -/
theorem c1_transport_failure_witness :
    (describe_with_curl (envExn "Connection refused") "llama3.2-vision" none
        (some "notes.txt")).1 = "Error making the request: " ++ "Connection refused"
    ∧ (scan_children (envExn "Connection refused") "llama3.2-vision"
        [FSTree.file "notes.txt", FSTree.file "cat.png"] "/r").length
      = [FSTree.file "notes.txt", FSTree.file "cat.png"].length :=
  c1_transport_failure_degrades_to_string (envExn "Connection refused")
    "llama3.2-vision" none (some "notes.txt")
    ⟨"llama3.2-vision", [⟨"user", "Describe this: notes.txt", none⟩]⟩
    "Connection refused" [FSTree.file "notes.txt", FSTree.file "cat.png"] "/r"
    (by rfl) (by rfl)

/-- C2: for a non-directory entry the walker's image-vs-text mode is decided
by is_image_item, which is a function of the lowercased name's suffixes
(png, jpg, jpeg, gif, via endswith): the leaf's description comes from a call
passing the entry's full path as image source exactly when is_image_item
holds, and the entry's base name as text; "photo.JPG" and "photo.jpg" both
select image mode. -/
theorem c2_image_mode_classification (env : DescribeEnv) (model : String)
    (folder_path item : String) (rest : List FSTree) :
    scan_children env model (FSTree.file item :: rest) folder_path
      = Node.node item (os_path_abspath (os_path_join folder_path item)) "file"
          ((describe_with_curl env model
             (if is_image_item item then some (os_path_join folder_path item) else none)
             (some item)).1) none
        :: scan_children env model rest folder_path
    ∧ is_image_item item = lower_endswith_any item ["png", "jpg", "jpeg", "gif"]
    ∧ is_image_item "photo.JPG" = true
    ∧ is_image_item "photo.jpg" = true := by
  refine ⟨?_, rfl, by decide, by decide⟩
  rw [scan_children]

/-- C3: how describe_with_curl turns the received HTTP response into its
return value: on status 200 the top-level `content` field of the parsed body,
or "No description available" when that field is absent; on any other status
the string "Error: {status} - {body}". -/
theorem c3_response_handling (env : DescribeEnv) (model : String)
    (image_path text : Option String) (p : Payload) (status : Nat)
    (jsonContent : Option String) (body : String)
    (hp : (describe_with_curl env model image_path text).2 = some p)
    (hr : env.http p = HttpOutcome.resp status (Except.ok jsonContent) body) :
    (describe_with_curl env model image_path text).1
      = if status == 200 then
          (match jsonContent with
           | some content => content
           | none => "No description available")
        else "Error: " ++ toString status ++ " - " ++ body := by
  rw [describe_posted_result env model image_path text p hp]
  simp only [http_post_and_handle, hr]
  cases jsonContent <;> by_cases h : status == 200 <;> simp [h]

/-- Witness for C3: a 200 response carrying content, a 200 response without
the content field, and a 404. -/
theorem c3_response_handling_witness :
    (describe_with_curl (envResp 200 (Except.ok (some "a cat")) "{}")
        "llama3.2-vision" none (some "cat.png")).1 = "a cat"
    ∧ (describe_with_curl (envResp 200 (Except.ok none) "{}")
        "llama3.2-vision" none (some "cat.png")).1 = "No description available"
    ∧ (describe_with_curl (envResp 404 (Except.ok none) "not found")
        "llama3.2-vision" none (some "cat.png")).1
      = "Error: 404 - not found" := by
  refine ⟨?_, ?_, ?_⟩
  · have := c3_response_handling (envResp 200 (Except.ok (some "a cat")) "{}")
      "llama3.2-vision" none (some "cat.png")
      ⟨"llama3.2-vision", [⟨"user", "Describe this: cat.png", none⟩]⟩
      200 (some "a cat") "{}" (by rfl) (by rfl)
    simpa using this
  · have := c3_response_handling (envResp 200 (Except.ok none) "{}")
      "llama3.2-vision" none (some "cat.png")
      ⟨"llama3.2-vision", [⟨"user", "Describe this: cat.png", none⟩]⟩
      200 none "{}" (by rfl) (by rfl)
    simpa using this
  · have := c3_response_handling (envResp 404 (Except.ok none) "not found")
      "llama3.2-vision" none (some "cat.png")
      ⟨"llama3.2-vision", [⟨"user", "Describe this: cat.png", none⟩]⟩
      404 none "not found" (by rfl) (by rfl)
    simpa using this

/-- C4: every node of the tree the walker builds satisfies the structural
invariant that the children field is present exactly when the type is
"folder"; in particular the leaf built for a non-directory entry has type
"file" and no children field. -/
theorem c4_children_iff_folder (env : DescribeEnv) (model : String)
    (entries rest : List FSTree) (folder_path item : String) :
    nodeInvariant (scan_dir env model entries folder_path) = true
    ∧ (scan_children env model (FSTree.file item :: rest) folder_path).head?.map
        Node.type = some "file"
    ∧ (scan_children env model (FSTree.file item :: rest) folder_path).head?.map
        Node.children = some none := by
  refine ⟨scan_dir_invariant env model entries folder_path, ?_, ?_⟩ <;>
    rw [scan_children] <;> rfl

/-- C5: scanning an existing folder yields a node of type "folder" with
exactly one child per immediate entry, in listing order (under the
filesystem-sanity hypotheses that the folder path is non-empty without a
trailing slash and the listed names are plain components, the children's
names are the entry names in the same order). -/
theorem c5_one_child_per_entry (env : DescribeEnv) (model : String)
    (name : String) (entries : List FSTree) (folder_path : String)
    (h1 : folder_path ≠ "") (h2 : py_endswith folder_path "/" = false)
    (h3 : ∀ e ∈ entries, plainName e.name = true) :
    ∃ node, scan_folder env model (FSTree.dir name entries) folder_path
        = Except.ok node
      ∧ node.type = "folder"
      ∧ ∃ cs, node.children = some cs
          ∧ cs.length = entries.length
          ∧ cs.map Node.name = entries.map FSTree.name := by
  refine ⟨scan_dir env model entries folder_path, rfl, ?_, ?_⟩
  · rw [scan_dir]; rfl
  · refine ⟨scan_children env model entries folder_path, by rw [scan_dir]; rfl,
      scan_children_length env model entries folder_path,
      scan_children_names env model entries folder_path h1 h2 h3⟩

/-- Witness for C5: a folder with one text file, one image and one
subdirectory. -/
theorem c5_one_child_per_entry_witness :
    ∃ node, scan_folder (envResp 200 (Except.ok (some "d")) "{}") "llama3.2-vision"
        (FSTree.dir "r" [FSTree.file "notes.txt", FSTree.file "cat.png",
                         FSTree.dir "sub" []]) "/r"
        = Except.ok node
      ∧ node.type = "folder"
      ∧ ∃ cs, node.children = some cs
          ∧ cs.length = [FSTree.file "notes.txt", FSTree.file "cat.png",
                         FSTree.dir "sub" []].length
          ∧ cs.map Node.name
            = [FSTree.file "notes.txt", FSTree.file "cat.png",
               FSTree.dir "sub" []].map FSTree.name :=
  c5_one_child_per_entry (envResp 200 (Except.ok (some "d")) "{}") "llama3.2-vision"
    "r" [FSTree.file "notes.txt", FSTree.file "cat.png", FSTree.dir "sub" []] "/r"
    (by decide) (by decide) (by decide)

/-- C6: when reading the image file raises (missing file, permission denied),
describe_with_curl returns the literal encoding-error string and POSTs
nothing (the recorded payload is none, so no network call is made). -/
theorem c6_encoding_failure_no_network (env : DescribeEnv) (model : String)
    (image_path : String) (text : Option String) (err : String)
    (hip : image_path ≠ "")
    (hread : env.readImage image_path = Except.error err) :
    describe_with_curl env model (some image_path) text
      = ("Error encoding the image for description.", none) := by
  rw [describe_with_curl]
  simp [hip, encode_image_to_base64, hread]

/-- Witness for C6 at a concrete unreadable image. -/
theorem c6_encoding_failure_witness :
    describe_with_curl
        (DescribeEnv.mk (fun _ => Except.error "No such file or directory")
          (fun _ => HttpOutcome.resp 200 (Except.ok (some "d")) "{}"))
        "llama3.2-vision" (some "/r/cat.png") (some "cat.png")
      = ("Error encoding the image for description.", none) :=
  c6_encoding_failure_no_network
    (DescribeEnv.mk (fun _ => Except.error "No such file or directory")
      (fun _ => HttpOutcome.resp 200 (Except.ok (some "d")) "{}"))
    "llama3.2-vision" "/r/cat.png" (some "cat.png") "No such file or directory"
    (by decide) (by rfl)

/-- C7: every folder the walker visits (the root through scan_folder and
every nested subdirectory through the recursion in scan_children) becomes a
node whose name is the folder's base name and whose description comes from a
text-mode describe call on that base name; the payload of that call carries
no image, only the message "Describe this: {base name}". -/
theorem c7_folders_text_mode (env : DescribeEnv) (model : String)
    (entries : List FSTree) (folder_path : String) :
    scan_dir env model entries folder_path
      = Node.node (os_path_basename folder_path) (os_path_abspath folder_path)
          "folder"
          ((describe_with_curl env model none (some (os_path_basename folder_path))).1)
          (some (scan_children env model entries folder_path))
    ∧ (describe_with_curl env model none (some (os_path_basename folder_path))).2
      = some (Payload.mk model
          [Message.mk "user" ("Describe this: " ++ os_path_basename folder_path) none]) := by
  exact ⟨by rw [scan_dir], rfl⟩

/-- C8: if the entered root path does not exist, the run prints the
"does not exist" message and writes no output file; if it names an existing
directory, the full tree is serialised by json.dump with indent=4 into
folder_structure.json inside that directory. -/
theorem c8_output_file (env : DescribeEnv) (world : World) (raw_input : String) :
    (world.lookup (py_strip raw_input) = none →
       main_run env world raw_input
         = RunResult.mk ["The specified folder does not exist."] none none)
    ∧ (∀ name entries, world.lookup (py_strip raw_input) = some (FSTree.dir name entries) →
       main_run env world raw_input
         = RunResult.mk
             ["Scanning folder and generating descriptions...",
              "Folder structure saved to "
                ++ os_path_join (py_strip raw_input) "folder_structure.json"]
             (some (os_path_join (py_strip raw_input) "folder_structure.json",
                    json_dump_indent4
                      (scan_dir env "llama3.2-vision" entries (py_strip raw_input))))
             none) := by
  constructor
  · intro h
    rw [main_run]
    simp only [h]
  · intro name entries h
    rw [main_run]
    simp only [h, scan_folder]

/-- Witness for C8: a missing root, and an existing root "/r" holding one
empty subfolder, entered with surrounding whitespace. -/
theorem c8_output_file_witness :
    main_run (envResp 200 (Except.ok (some "d")) "{}")
        (World.mk (fun _ => none)) "/missing"
      = RunResult.mk ["The specified folder does not exist."] none none
    ∧ main_run (envResp 200 (Except.ok (some "d")) "{}")
        (World.mk (fun p => if p = "/r" then some (FSTree.dir "r" [FSTree.dir "a" []]) else none))
        " /r "
      = RunResult.mk
          ["Scanning folder and generating descriptions...",
           "Folder structure saved to " ++ os_path_join "/r" "folder_structure.json"]
          (some (os_path_join "/r" "folder_structure.json",
                 json_dump_indent4
                   (scan_dir (envResp 200 (Except.ok (some "d")) "{}")
                     "llama3.2-vision" [FSTree.dir "a" []] "/r")))
          none := by
  constructor
  · exact (c8_output_file (envResp 200 (Except.ok (some "d")) "{}")
      (World.mk (fun _ => none)) "/missing").1 (by rfl)
  · have := (c8_output_file (envResp 200 (Except.ok (some "d")) "{}")
      (World.mk (fun p => if p = "/r" then some (FSTree.dir "r" [FSTree.dir "a" []]) else none))
      " /r ").2 "r" [FSTree.dir "a" []] (by rfl)
    simpa using this

/-- C9: on any directory of the finite, cycle-free filesystem model the
walker's recursion terminates with a single fully populated node: scan_folder
returns it, and it contains exactly one node per filesystem entry of the
whole subtree, so every child has been visited before the node is returned. -/
theorem c9_terminates_fully_populated (env : DescribeEnv) (model : String)
    (name : String) (entries : List FSTree) (folder_path : String) :
    ∃ node, scan_folder env model (FSTree.dir name entries) folder_path
        = Except.ok node
      ∧ Node.totalCount node = FSTree.totalCount (FSTree.dir name entries) := by
  refine ⟨scan_dir env model entries folder_path, rfl, ?_⟩
  rw [FSTree.totalCount, scan_dir_count]

/-- C10: a path that exists but names a plain file passes main's existence
check, yet os.listdir then raises an unhandled NotADirectoryError: the run
aborts with an uncaught exception and no output file is written. -/
theorem c10_file_root_aborts (env : DescribeEnv) (world : World)
    (raw_input name : String)
    (h : world.lookup (py_strip raw_input) = some (FSTree.file name)) :
    (world.lookup (py_strip raw_input)).isSome = true
    ∧ (main_run env world raw_input).written = none
    ∧ (main_run env world raw_input).uncaught
      = some ("NotADirectoryError: [Errno 20] Not a directory: " ++ (py_strip raw_input)) := by
  refine ⟨by rw [h]; rfl, ?_, ?_⟩ <;> rw [main_run] <;> simp only [h, scan_folder]

/-- Witness for C10: the run on a regular file "/tmp/notes.txt". -/
theorem c10_file_root_aborts_witness :
    ((World.mk (fun p => if p = "/tmp/notes.txt" then some (FSTree.file "notes.txt") else none)).lookup
        (py_strip "/tmp/notes.txt")).isSome = true
    ∧ (main_run (envResp 200 (Except.ok (some "d")) "{}")
        (World.mk (fun p => if p = "/tmp/notes.txt" then some (FSTree.file "notes.txt") else none))
        "/tmp/notes.txt").written = none
    ∧ (main_run (envResp 200 (Except.ok (some "d")) "{}")
        (World.mk (fun p => if p = "/tmp/notes.txt" then some (FSTree.file "notes.txt") else none))
        "/tmp/notes.txt").uncaught
      = some ("NotADirectoryError: [Errno 20] Not a directory: " ++ (py_strip "/tmp/notes.txt")) :=
  c10_file_root_aborts (envResp 200 (Except.ok (some "d")) "{}")
    (World.mk (fun p => if p = "/tmp/notes.txt" then some (FSTree.file "notes.txt") else none))
    "/tmp/notes.txt" "notes.txt" (by rfl)
